import Mathlib

/-!
Shallow embedding of the core of `src/japanese_ocr/tesseract_ocr.py`
(the TesseractOCR batch-OCR orchestration layer): the configuration
value (`TesseractConfig.to_cmd_args`), the single-image processor
(`_process_image`), the PDF page pipeline (`_process_pdf`), the batch
dispatcher (`process`, `process_directory`, `process_file_list`).

External collaborators (the Tesseract engine process, the rasterizer,
the filesystem) are modelled as oracles supplied to the embedded
functions; everything the Python code itself computes is translated
directly from the source.
-/

/-- Python truthiness of a string (`if s:`). -/
def strTruthy (s : String) : Bool := s ≠ ""

/-- Python truthiness of an `Optional[str]` (`if o:`): `None` and `""` are falsy. -/
def optStrTruthy : Option String → Bool
  | none => false
  | some s => strTruthy s

/-- Python `x or d` for an `Optional[str]` with a string default. -/
def pyOrStr (o : Option String) (d : String) : String :=
  if optStrTruthy o then o.getD "" else d

/-- Helper for `pySplit`: walk the characters, `cur` holding the (reversed)
pending token. -/
def splitWsAux : List Char → List Char → List String
  | [], cur => if cur.isEmpty then [] else [String.mk cur.reverse]
  | c :: rest, cur =>
    if c.isWhitespace then
      (if cur.isEmpty then [] else [String.mk cur.reverse]) ++ splitWsAux rest []
    else splitWsAux rest (c :: cur)

/-- Python `str.split()` with no argument: split on whitespace runs, dropping empties. -/
def pySplit (s : String) : List String := splitWsAux s.toList []

/-- Path join `dir / name` as pathlib produces it (POSIX form). -/
def pathJoin (d f : String) : String := d ++ "/" ++ f

/-- Helper for `splitChar`: split a character list at a separator,
`cur` holding the (reversed) pending piece. -/
def splitCharAux (sep : Char) : List Char → List Char → List (List Char)
  | [], cur => [cur.reverse]
  | c :: rest, cur =>
    if c = sep then cur.reverse :: splitCharAux sep rest []
    else splitCharAux sep rest (c :: cur)

/-- Python `str.split(sep)` for a one-character separator (keeps empties). -/
def splitChar (sep : Char) (s : String) : List String :=
  (splitCharAux sep s.toList []).map String.mk

/-- Helper: drop leading whitespace characters. -/
def dropLeadingWs : List Char → List Char
  | [] => []
  | c :: rest => if c.isWhitespace then dropLeadingWs rest else c :: rest

/-- Python `str.strip()` with no argument: remove leading and trailing whitespace. -/
def pyStrip (s : String) : String :=
  String.mk ((dropLeadingWs (dropLeadingWs s.toList).reverse).reverse)

/-- Python `str.lower()` (ASCII case fold suffices for the extensions used here). -/
def pyLower (s : String) : String := String.mk (s.toList.map Char.toLower)

/-- Final path component (pathlib `Path.name`). -/
def pathName (p : String) : String := (splitChar '/' p).getLastD p

/-- pathlib `Path.stem`: the final component without its last extension. -/
def pathStem (p : String) : String :=
  let n := pathName p
  match splitChar '.' n with
  | [] => n
  | [_] => n
  | ["", _] => n
  | parts => String.intercalate "." parts.dropLast

/-- pathlib `Path.suffix`: the last extension of the final component, with the dot. -/
def pathSuffix (p : String) : String :=
  let n := pathName p
  match splitChar '.' n with
  | [] => ""
  | [_] => ""
  | ["", _] => ""
  | parts => "." ++ parts.getLastD ""

/-- Configuration options for Tesseract OCR: the `TesseractConfig`
dataclass of tesseract_ocr.py. -/
structure TesseractConfig where
  lang : String := "eng"
  dpi : Int := 300
  psm : Int := 3
  oem : Int := 3
  config_string : String := ""
  output_pdf : Bool := false
  tessdata_dir : Option String := none
  deriving Repr, DecidableEq

/-- Convert configuration to command line arguments:
`TesseractConfig.to_cmd_args`, translated statement by statement from the
source. -/
def TesseractConfig.to_cmd_args (c : TesseractConfig) : List String :=
  let args : List String := []
  let args := args ++ ["-l", c.lang]
  let args := args ++ ["--psm", toString c.psm]
  let args := args ++ ["--oem", toString c.oem]
  let args := if strTruthy c.config_string then args ++ pySplit c.config_string else args
  let args := if c.output_pdf then args ++ ["pdf"] else args
  let args :=
    if optStrTruthy c.tessdata_dir then args ++ ["--tessdata-dir", c.tessdata_dir.getD ""]
    else args
  args

/-- Oracle for the behaviour of the external Tesseract engine during one
`_process_image` call: the outcome of the main invocation (exit status and
which artifacts it writes at the output base path) and of the forced
text-only re-run, when that is triggered. -/
structure EngineRun where
  ok : Bool
  writesTxt : Bool
  txtContent : String
  writesPdf : Bool
  rerunOk : Bool
  rerunWritesTxt : Bool
  rerunTxtContent : String
  deriving Repr, DecidableEq

/-- The opaque fresh directory produced by `tempfile.mkdtemp()` inside
`_process_image` when no output directory is supplied. -/
def MKDTEMP_DIR : String := "/tmp/mkdtemp"

/-- Observable outcome of one `_process_image` call: the returned value
(`Except.error` for a raised exception), the engine command line, the forced
re-run command line when a re-run happened, and the resulting filesystem
facts (temporary-directory bookkeeping and which artifacts remain at the
resolved output base path after the call). -/
structure ImageOutcome where
  result : Except Unit (Option String)
  cmd : List String
  rerunCmd : Option (List String)
  outPath : String
  tempCreated : Bool
  tempRemoved : Bool
  txtAtBase : Bool
  pdfAtBase : Bool
  deriving Repr

/-- Returns `true` exactly when an `Except` value is `ok`. -/
def exceptIsOk : Except Unit (Option String) → Bool
  | .ok _ => true
  | .error _ => false

/-- The single-image processor `TesseractOCR._process_image`, translated
from the source.  The engine
process is the `eng` oracle; everything else (output-base resolution,
command construction including the output-format fix-up, the text read-back
with forced re-run, and the cleanup block that runs only inside the
`return_text` branch) follows the Python control flow. -/
def processImage (tesseractCmd imagePath : String) (outputDir : Option String)
    (cfg : TesseractConfig) (outputFilenameBase : Option String)
    (returnText : Bool) (eng : EngineRun) : ImageOutcome :=
  let out_base := pyOrStr outputFilenameBase (pathStem imagePath)
  let tempCreated := !outputDir.isSome
  let out_path := pathJoin (match outputDir with | some d => d | none => MKDTEMP_DIR) out_base
  let cmd0 := [tesseractCmd, imagePath, out_path]
  let output_formats :=
    (if cfg.output_pdf then ["pdf"] else [])
      ++ (if returnText && cfg.output_pdf then ["txt"] else [])
  let cmd1 := cmd0 ++ cfg.to_cmd_args
  let cmd :=
    if output_formats ≠ [] then
      (if cmd1.contains "pdf" then cmd1.erase "pdf" else cmd1) ++ output_formats
    else cmd1
  if !eng.ok then
    -- `RuntimeError("Tesseract failed: ...")` raised; no cleanup runs.
    { result := .error (), cmd := cmd, rerunCmd := none, outPath := out_path,
      tempCreated := tempCreated, tempRemoved := false,
      txtAtBase := false, pdfAtBase := false }
  else if returnText then
    if eng.writesTxt then
      if tempCreated then
        -- cleanup: unlink the txt file and remove the whole temp tree
        { result := .ok (some eng.txtContent), cmd := cmd, rerunCmd := none,
          outPath := out_path, tempCreated := true, tempRemoved := true,
          txtAtBase := false, pdfAtBase := false }
      else
        { result := .ok (some eng.txtContent), cmd := cmd, rerunCmd := none,
          outPath := out_path, tempCreated := false, tempRemoved := false,
          txtAtBase := eng.writesTxt, pdfAtBase := eng.writesPdf }
    else
      let rcmd := [tesseractCmd, imagePath, out_path, "-l", cfg.lang]
      if !eng.rerunOk then
        -- `subprocess.run(..., check=True)` raises CalledProcessError; no cleanup.
        { result := .error (), cmd := cmd, rerunCmd := some rcmd, outPath := out_path,
          tempCreated := tempCreated, tempRemoved := false,
          txtAtBase := false, pdfAtBase := eng.writesPdf }
      else
        let text : Option String :=
          if eng.rerunWritesTxt then some eng.rerunTxtContent else none
        if tempCreated then
          { result := .ok text, cmd := cmd, rerunCmd := some rcmd, outPath := out_path,
            tempCreated := true, tempRemoved := true,
            txtAtBase := false, pdfAtBase := false }
        else
          { result := .ok text, cmd := cmd, rerunCmd := some rcmd, outPath := out_path,
            tempCreated := false, tempRemoved := false,
            txtAtBase := eng.rerunWritesTxt, pdfAtBase := eng.writesPdf }
  else
    -- return_text is False: no text handling and, crucially, no cleanup block.
    { result := .ok none, cmd := cmd, rerunCmd := none, outPath := out_path,
      tempCreated := tempCreated, tempRemoved := false,
      txtAtBase := eng.writesTxt, pdfAtBase := eng.writesPdf }

/-- The pipeline-scoped `tempfile.TemporaryDirectory()` that `_process_pdf`
rasterizes the PDF pages into. -/
def RASTER_TMP_DIR : String := "/tmp/raster"

/-- Accumulated state of the per-page loop of `_process_pdf`: the
per-page `_process_image` outcomes (up to and including a failing page),
the collected truthy page texts `all_text`, the recorded
`output_files["pdf"]` and `output_files["txt"]` paths, and whether a page
raised (aborting the loop). -/
structure PageLoopState where
  outcomes : List ImageOutcome
  all_text : List String
  pdfFiles : List String
  txtFiles : List String
  failed : Bool
  deriving Repr

/-- The `for i, img_path in enumerate(image_paths)` loop body of
`_process_pdf`, translated from the source: each page is handed to
`_process_image` with the per-page filename, the pages directory (or the
top-level output directory) and `return_text or combine_output`; truthy
text is collected in page order, and existing per-page output files are
recorded when combination is on.  An exception from a page propagates,
ending the loop. -/
def pageLoop (tesseractCmd : String) (currentOutputDir : Option String)
    (cfg : TesseractConfig) (base_name : String) (combineOutput needText : Bool)
    (pages : List EngineRun) (n : Nat) : PageLoopState :=
  match pages with
  | [] => { outcomes := [], all_text := [], pdfFiles := [], txtFiles := [], failed := false }
  | eng :: rest =>
    let page_filename := base_name ++ "_page_" ++ toString n
    let img_path := pathJoin RASTER_TMP_DIR ("page_" ++ toString n ++ ".png")
    let oc := processImage tesseractCmd img_path currentOutputDir cfg
      (some page_filename) needText eng
    match oc.result with
    | .error _ =>
      { outcomes := [oc], all_text := [], pdfFiles := [], txtFiles := [], failed := true }
    | .ok text =>
      let textTruthy := match text with | some s => strTruthy s | none => false
      let thisText := if textTruthy then [text.getD ""] else []
      let thisPdf :=
        if textTruthy && combineOutput && currentOutputDir.isSome
            && cfg.output_pdf && oc.pdfAtBase then
          [pathJoin (currentOutputDir.getD "") (page_filename ++ ".pdf")]
        else []
      let thisTxt :=
        if textTruthy && combineOutput && currentOutputDir.isSome && oc.txtAtBase then
          [pathJoin (currentOutputDir.getD "") (page_filename ++ ".txt")]
        else []
      let restState := pageLoop tesseractCmd currentOutputDir cfg base_name
        combineOutput needText rest (n + 1)
      { outcomes := oc :: restState.outcomes,
        all_text := thisText ++ restState.all_text,
        pdfFiles := thisPdf ++ restState.pdfFiles,
        txtFiles := thisTxt ++ restState.txtFiles,
        failed := restState.failed }

/-- Observable outcome of one `_process_pdf` call: the returned value,
whether the pipeline-scoped raster temporary directory was removed,
whether the dedicated `pages/<base>` subdirectory was created, the combined
text file (path and content) when one was written, whether a combined-PDF
merge was attempted, and the per-page outcomes. -/
structure PdfOutcome where
  result : Except Unit (Option String)
  rasterTempRemoved : Bool
  pagesDirCreated : Bool
  combinedTxt : Option (String × String)
  combinedPdfAttempted : Bool
  pageOutcomes : List ImageOutcome
  deriving Repr

/-- The PDF page pipeline `TesseractOCR._process_pdf`, translated from the
source.  `pages` is the
rasterizer oracle: one `EngineRun` per rasterized page, in page order (the
zero-page check happens before any directory is created).  The
`with tempfile.TemporaryDirectory()` block guarantees the raster directory
is removed on every exit path, including a page raising. -/
def processPdf (tesseractCmd pdfPath : String) (outputDir : Option String)
    (cfg : TesseractConfig) (outputFilenameBase : Option String)
    (returnText combineOutput : Bool) (pages : List EngineRun) : PdfOutcome :=
  match pages with
  | [] =>
    -- "No pages found in PDF": log a warning and return None before
    -- creating any directory or file.
    { result := .ok none, rasterTempRemoved := true, pagesDirCreated := false,
      combinedTxt := none, combinedPdfAttempted := false, pageOutcomes := [] }
  | _ :: _ =>
    let base_name := pyOrStr outputFilenameBase (pathStem pdfPath)
    let pages_dir : Option String :=
      match outputDir with
      | some d => if combineOutput then some (pathJoin (pathJoin d "pages") base_name) else none
      | none => none
    let current_output_dir := match pages_dir with | some d => some d | none => outputDir
    let st := pageLoop tesseractCmd current_output_dir cfg base_name combineOutput
      (returnText || combineOutput) pages 1
    if st.failed then
      { result := .error (), rasterTempRemoved := true,
        pagesDirCreated := pages_dir.isSome, combinedTxt := none,
        combinedPdfAttempted := false, pageOutcomes := st.outcomes }
    else
      let combinedTxt : Option (String × String) :=
        match outputDir with
        | some d =>
          if combineOutput && st.all_text ≠ [] then
            some (pathJoin d (base_name ++ ".txt"), String.intercalate "\n\n" st.all_text)
          else none
        | none => none
      let combinedPdfAttempted :=
        combineOutput && outputDir.isSome && st.all_text ≠ []
          && cfg.output_pdf && st.pdfFiles ≠ []
      { result := .ok (if returnText then some (String.intercalate "\n\n" st.all_text) else none),
        rasterTempRemoved := true, pagesDirCreated := pages_dir.isSome,
        combinedTxt := combinedTxt, combinedPdfAttempted := combinedPdfAttempted,
        pageOutcomes := st.outcomes }

/-- Filesystem oracle for the batch dispatcher: path predicates and the
lines of a text file (without their trailing newlines). -/
structure FS where
  isFile : String → Bool
  isDir : String → Bool
  pathExists : String → Bool
  readLines : String → List String

/-- The supported image extensions `TesseractOCR.SUPPORTED_IMAGE_FORMATS`. -/
def SUPPORTED_IMAGE_FORMATS : List String :=
  [".png", ".jpg", ".jpeg", ".tiff", ".tif", ".bmp", ".gif"]

/-- The classification that `TesseractOCR.process` performs on its input
path: file list, directory, single supported file, or `ValueError`. -/
inductive Dispatch where
  | fileList
  | directory
  | singleFile
  | valueError
  deriving Repr, DecidableEq

/-- The input-classification logic of `TesseractOCR.process`, translated
from the source: a `.txt` file is probed by `f.readline().strip()` (the
literal first line of the file, stripped) and treated as a file list when
that line is truthy and exists on disk; otherwise directories, then single
supported files, then `ValueError`. -/
def processDispatch (fs : FS) (path : String) : Dispatch :=
  if fs.isFile path && (pyLower (pathSuffix path) == ".txt")
      && (let first_line := pyStrip ((fs.readLines path).headD "")
          strTruthy first_line && fs.pathExists first_line) then
    Dispatch.fileList
  else if fs.isDir path then
    Dispatch.directory
  else if fs.isFile path
      && (SUPPORTED_IMAGE_FORMATS.contains (pyLower (pathSuffix path))
          || pyLower (pathSuffix path) == ".pdf") then
    Dispatch.singleFile
  else
    Dispatch.valueError

/-- The item paths `process_file_list` reads from a list file:
`[line.strip() for line in f if line.strip()]`. -/
def fileListPaths (fs : FS) (path : String) : List String :=
  ((fs.readLines path).map pyStrip).filter (fun l => strTruthy l)

/-- Python-dict assignment `m[k] = v` on an insertion-ordered association
list: overwrite in place when the key is present, else append. -/
def dictSet (m : List (String × Option String)) (k : String) (v : Option String) :
    List (String × Option String) :=
  if m.any (fun kv => kv.1 == k) then
    m.map (fun kv => if kv.1 == k then (k, v) else kv)
  else m ++ [(k, v)]

/-- One iteration of the batch loop shared by `process_directory` and
`process_file_list`: `try` the per-item `process_file` call (its outcome is
the item's second component); on success record the text only when
`return_text` is set, on any exception record `None` under the item's key. -/
def batchStep (returnText : Bool) (m : List (String × Option String))
    (item : String × Except Unit (Option String)) : List (String × Option String) :=
  match item.2 with
  | .ok t => if returnText then dictSet m item.1 t else m
  | .error _ => dictSet m item.1 none

/-- The batch loop of `process_directory` / `process_file_list` over the
discovered items in discovery order, starting from the empty dict. -/
def processBatch (items : List (String × Except Unit (Option String)))
    (returnText : Bool) : List (String × Option String) :=
  items.foldl (batchStep returnText) []

/-- An engine run that exits 0 and writes the text artifact with content `s`
(and no PDF); the re-run oracle is irrelevant for it. -/
def goodEngine (s : String) : EngineRun :=
  { ok := true, writesTxt := true, txtContent := s, writesPdf := false,
    rerunOk := true, rerunWritesTxt := false, rerunTxtContent := "" }

/-- The batch-result entry the spec expects for one item outcome: the text
on success, an absent value on failure. -/
def outcomeEntry : Except Unit (Option String) → Option String
  | .ok t => t
  | .error _ => none

/-- A filesystem holding a list file `list.txt` that begins with a blank
line followed by the existing path `img.png`. -/
def fsBlankFirstLine : FS :=
  { isFile := fun p => p == "list.txt", isDir := fun _ => false,
    pathExists := fun p => p == "img.png",
    readLines := fun _ => ["", "img.png"] }

/-- A filesystem holding a well-formed list file `good.txt` whose first
line is the existing path `img.png`. -/
def fsGoodList : FS :=
  { isFile := fun p => p == "good.txt", isDir := fun _ => false,
    pathExists := fun p => p == "img.png",
    readLines := fun _ => ["img.png", "", " img2.png "] }

/-- An engine run that exits 0 and writes both the text artifact (content
`t`) and the PDF artifact, honouring the engine's output contract when both
formats are requested. -/
def dualEngine (t : String) : EngineRun :=
  { ok := true, writesTxt := true, txtContent := t, writesPdf := true,
    rerunOk := true, rerunWritesTxt := true, rerunTxtContent := t }

/-- An engine run whose main invocation exits 0 without writing the text
artifact, and whose forced re-run exits 0 but still produces no text file. -/
def rerunMissEngine (wp : Bool) : EngineRun :=
  { ok := true, writesTxt := false, txtContent := "", writesPdf := wp,
    rerunOk := true, rerunWritesTxt := false, rerunTxtContent := "" }

lemma pySplit_empty : pySplit "" = [] := by rfl

lemma strTruthy_eq_false {s : String} (h : strTruthy s = false) : s = "" := by
  simpa [strTruthy] using h

/-- C9: for every configuration value, `to_cmd_args` produces, in fixed
order, `-l` then the language, `--psm` then the decimal segmentation mode,
`--oem` then the decimal engine mode, the whitespace-split tokens of the
extra-argument string verbatim, the token `pdf` iff searchable-PDF output
is set, and `--tessdata-dir` with the override directory iff one is
present (truthy). -/
theorem toCmdArgs_token_order (c : TesseractConfig) :
    c.to_cmd_args =
      ["-l", c.lang, "--psm", toString c.psm, "--oem", toString c.oem]
        ++ pySplit c.config_string
        ++ (if c.output_pdf then ["pdf"] else [])
        ++ (if optStrTruthy c.tessdata_dir then ["--tessdata-dir", c.tessdata_dir.getD ""]
            else []) := by
  unfold TesseractConfig.to_cmd_args
  cases hcs : strTruthy c.config_string with
  | false =>
    rw [strTruthy_eq_false hcs, pySplit_empty]
    cases c.output_pdf <;> cases htd : optStrTruthy c.tessdata_dir <;> simp
  | true =>
    cases c.output_pdf <;> cases htd : optStrTruthy c.tessdata_dir <;> simp

/-- C8: a PDF whose rasterization yields zero pages makes the pipeline
return an absent value, write no files (no combined artifacts, no pages
directory, no per-page outputs) and raise no error. -/
theorem zeroPages_noEffect (tc pdf : String) (od : Option String)
    (cfg : TesseractConfig) (ob : Option String) (rt co : Bool) :
    processPdf tc pdf od cfg ob rt co [] =
      { result := .ok none, rasterTempRemoved := true, pagesDirCreated := false,
        combinedTxt := none, combinedPdfAttempted := false, pageOutcomes := [] } := rfl

/-- C4: any exception raised while processing one batch item is caught at
the dispatcher loop, recorded as an absent value under that item's key, and
the remaining discovered items are still processed from that updated
mapping, so the batch completes and returns a mapping. -/
theorem batchIsolation (pre post : List (String × Except Unit (Option String)))
    (p : String) (rt : Bool) :
    processBatch (pre ++ (p, Except.error ()) :: post) rt =
      post.foldl (batchStep rt) (dictSet (processBatch pre rt) p none) := by
  unfold processBatch
  rw [List.foldl_append, List.foldl_cons]
  rfl

/-- C10: with combination requested but no output directory, no combined
text file is written and no combined-PDF merge is attempted; combination
only forces per-page text extraction (the page loop runs with the text
flag forced to `true`), and the call returns the joined collected page
text when text return was requested, otherwise an absent value. -/
theorem combineWithoutDir_frame (tc pdf : String) (cfg : TesseractConfig)
    (ob : Option String) (rt : Bool) (pages : List EngineRun) :
    (processPdf tc pdf none cfg ob rt true pages).combinedTxt = none ∧
    (processPdf tc pdf none cfg ob rt true pages).combinedPdfAttempted = false ∧
    (processPdf tc pdf none cfg ob rt true pages).result =
      (if pages.isEmpty then Except.ok none
       else if (pageLoop tc none cfg (pyOrStr ob (pathStem pdf)) true true pages 1).failed then
         Except.error ()
       else
         Except.ok (if rt then
           some (String.intercalate "\n\n"
             (pageLoop tc none cfg (pyOrStr ob (pathStem pdf)) true true pages 1).all_text)
         else none)) := by
  cases pages with
  | nil => exact ⟨rfl, rfl, rfl⟩
  | cons e es =>
    unfold processPdf
    simp only [Bool.or_true, List.isEmpty_cons]
    constructor
    · split <;> rfl
    constructor
    · split <;> simp
    · split <;> simp_all

/-- C2 counterexample: a single-image call with no output directory and
text return NOT requested creates a private temporary directory, succeeds,
and returns with the temporary directory still on disk — so not every
temporary artifact is removed before the call returns. -/
theorem tempCleanup_counterexample :
    (processImage "tesseract" "scan.png" none {} none false (goodEngine "hi")).tempCreated
        = true ∧
    (processImage "tesseract" "scan.png" none {} none false (goodEngine "hi")).tempRemoved
        = false ∧
    (processImage "tesseract" "scan.png" none {} none false (goodEngine "hi")).result
        = .ok none :=
  ⟨rfl, rfl, rfl⟩

/-- C2 amended: the PDF pipeline's raster temporary directory is removed on
every exit path, but the single-image processor's private temporary
directory (created when no output directory is given) is removed exactly
when text return was requested AND the call returns without raising; with
text return off, or on the engine-failure / failed-re-run paths, it is
leaked. -/
theorem tempCleanup_behavior (tc img pdfP : String) (cfg : TesseractConfig)
    (ob obp : Option String) (rt rtp co : Bool) (eng : EngineRun)
    (od : Option String) (pages : List EngineRun) :
    (processPdf tc pdfP od cfg obp rtp co pages).rasterTempRemoved = true ∧
    (processImage tc img none cfg ob rt eng).tempCreated = true ∧
    (processImage tc img none cfg ob rt eng).tempRemoved =
      (rt && exceptIsOk (processImage tc img none cfg ob rt eng).result) := by
  refine ⟨?_, ?_, ?_⟩
  · cases pages with
    | nil => rfl
    | cons e es =>
      cases od <;> unfold processPdf <;> simp only <;>
        split <;> (first | rfl | (split <;> rfl))
  · obtain ⟨eok, ewt, etc_, ewp, ero, erwt, erc⟩ := eng
    cases eok <;> cases rt <;> cases ewt <;> cases ero <;> cases erwt <;> rfl
  · obtain ⟨eok, ewt, etc_, ewp, ero, erwt, erc⟩ := eng
    cases eok <;> cases rt <;> cases ewt <;> cases ero <;> cases erwt <;> rfl

lemma dictSet_append {m : List (String × Option String)} {k : String}
    (h : m.any (fun kv => kv.1 == k) = false) (v : Option String) :
    dictSet m k v = m ++ [(k, v)] := by
  simp [dictSet, h]

lemma processBatch_foldl_true (items : List (String × Except Unit (Option String)))
    (acc : List (String × Option String))
    (hdisj : ∀ it ∈ items, ∀ kv ∈ acc, kv.1 ≠ it.1)
    (hnd : (items.map Prod.fst).Nodup) :
    items.foldl (batchStep true) acc
      = acc ++ items.map (fun it => (it.1, outcomeEntry it.2)) := by
  induction items generalizing acc with
  | nil => simp
  | cons it rest ih =>
    rw [List.foldl_cons]
    have hnokey : acc.any (fun kv => kv.1 == it.1) = false := by
      rw [List.any_eq_false]
      intro kv hkv
      simpa using hdisj it (List.mem_cons_self it rest) kv hkv
    have hstep : batchStep true acc it = acc ++ [(it.1, outcomeEntry it.2)] := by
      rcases it with ⟨p, r⟩
      cases r with
      | ok t => simpa [batchStep, outcomeEntry] using dictSet_append hnokey t
      | error e => simpa [batchStep, outcomeEntry] using dictSet_append hnokey none
    rw [hstep, ih]
    · simp
    · intro it2 h2 kv hkv
      rcases List.mem_append.mp hkv with hin | hone
      · exact hdisj it2 (List.mem_cons_of_mem it h2) kv hin
      · have : kv = (it.1, outcomeEntry it.2) := by simpa using hone
        subst this
        simp only [List.map_cons, List.nodup_cons] at hnd
        exact fun hc => hnd.1 (hc ▸ List.mem_map_of_mem Prod.fst h2)
    · simp only [List.map_cons, List.nodup_cons] at hnd
      exact hnd.2

/-- C3 counterexample: one discovered item that succeeds, with the
return-text flag off, yields an empty mapping — not one entry per
discovered item. -/
theorem batchEntries_counterexample :
    processBatch [("a.png", Except.ok (some "hello"))] false = [] ∧
    ([] : List (String × Option String)).length ≠ 1 :=
  ⟨rfl, by decide⟩

/-- C3 amended: only when the return-text flag is set does the batch
mapping contain exactly one entry per discovered item (with distinct
paths), keyed by the item path in discovery order, holding the returned
text on success and an absent value on failure; with the flag off,
successful items produce no entry at all (only failures are recorded). -/
theorem batchEntries_returnText (items : List (String × Except Unit (Option String)))
    (hnd : (items.map Prod.fst).Nodup) :
    processBatch items true = items.map (fun it => (it.1, outcomeEntry it.2)) := by
  unfold processBatch
  simpa using processBatch_foldl_true items [] (by simp) hnd

/-- Witness for `batchEntries_returnText` at a concrete two-item batch
with one success and one failure. -/
theorem batchEntries_returnText_witness :
    processBatch [("a.png", Except.ok (some "x")), ("b.pdf", Except.error ())] true
      = [("a.png", some "x"), ("b.pdf", none)] :=
  batchEntries_returnText _ (by decide)

/-- C5 counterexample: for a `.txt` file beginning with a blank line whose
first NON-empty line (`img.png`) exists on disk, the dispatcher does not
classify a file list — the probe reads only the literal first line, so
classification falls through to `ValueError`. -/
theorem fileListClassification_counterexample :
    ((fsBlankFirstLine.readLines "list.txt").map pyStrip).filter (fun l => strTruthy l)
        = ["img.png"] ∧
    fsBlankFirstLine.pathExists "img.png" = true ∧
    processDispatch fsBlankFirstLine "list.txt" = Dispatch.valueError ∧
    Dispatch.valueError ≠ Dispatch.fileList :=
  ⟨by decide, by decide, by decide, by decide⟩

/-- C5 amended: classification as a file list requires the literal FIRST
line of the `.txt` file (stripped) to be non-empty and resolve to an
existing path — files beginning with blank lines are not recognised; when
it is recognised, all non-empty stripped lines are processed as item
paths. -/
theorem fileListClassification_firstLine (fs : FS) (path : String)
    (hfile : fs.isFile path = true)
    (hsuf : pyLower (pathSuffix path) = ".txt")
    (hne : strTruthy (pyStrip ((fs.readLines path).headD "")) = true)
    (hex : fs.pathExists (pyStrip ((fs.readLines path).headD "")) = true) :
    processDispatch fs path = Dispatch.fileList ∧
    fileListPaths fs path
      = ((fs.readLines path).map pyStrip).filter (fun l => strTruthy l) := by
  refine ⟨?_, rfl⟩
  unfold processDispatch
  simp only [List.headD_eq_head?] at hne hex
  simp [hfile, hsuf, hne, hex]

/-- Witness for `fileListClassification_firstLine` on a concrete
filesystem whose list file's first line is a valid path. -/
theorem fileListClassification_firstLine_witness :
    processDispatch fsGoodList "good.txt" = Dispatch.fileList ∧
    fileListPaths fsGoodList "good.txt"
      = ((fsGoodList.readLines "good.txt").map pyStrip).filter (fun l => strTruthy l) :=
  fileListClassification_firstLine fsGoodList "good.txt"
    (by decide) (by decide) (by decide) (by decide)

/-- C6 counterexample: with searchable-PDF and text return both requested
but NO explicit output directory, the call succeeds (and both formats were
requested and produced) yet after the call neither artifact exists at the
resolved output base path — the cleanup block unlinked the text file and
removed the whole temporary tree. -/
theorem formatDuality_counterexample :
    (processImage "tesseract" "scan.png" none ⟨"eng", 300, 3, 3, "", true, none⟩ none true
        (dualEngine "hi")).result = .ok (some "hi") ∧
    (processImage "tesseract" "scan.png" none ⟨"eng", 300, 3, 3, "", true, none⟩ none true
        (dualEngine "hi")).txtAtBase = false ∧
    (processImage "tesseract" "scan.png" none ⟨"eng", 300, 3, 3, "", true, none⟩ none true
        (dualEngine "hi")).pdfAtBase = false :=
  ⟨rfl, rfl, rfl⟩

/-- C6 amended: with searchable-PDF and text return both requested, the
engine command ends with the explicit output-format tokens `pdf` and `txt`;
and when an EXPLICIT output directory is given and the engine honours the
request, both the `.txt` and the `.pdf` artifact exist at the resolved
output base path after the call (without one, the temporary-directory
cleanup deletes them). -/
theorem formatDuality_explicitDir (tc img d : String) (cfg : TesseractConfig)
    (ob : Option String) (t : String) (hpdf : cfg.output_pdf = true) :
    (∃ pre,
      (processImage tc img (some d) cfg ob true (dualEngine t)).cmd = pre ++ ["pdf", "txt"]) ∧
    (processImage tc img (some d) cfg ob true (dualEngine t)).txtAtBase = true ∧
    (processImage tc img (some d) cfg ob true (dualEngine t)).pdfAtBase = true := by
  unfold processImage dualEngine
  simp [hpdf]

/-- Witness for `formatDuality_explicitDir` at a concrete call with output
directory `out`. -/
theorem formatDuality_explicitDir_witness :
    (⟨"eng", 300, 3, 3, "", true, none⟩ : TesseractConfig).output_pdf = true ∧
    ((∃ pre,
      (processImage "tesseract" "scan.png" (some "out") ⟨"eng", 300, 3, 3, "", true, none⟩
          none true (dualEngine "hi")).cmd = pre ++ ["pdf", "txt"]) ∧
    (processImage "tesseract" "scan.png" (some "out") ⟨"eng", 300, 3, 3, "", true, none⟩
        none true (dualEngine "hi")).txtAtBase = true ∧
    (processImage "tesseract" "scan.png" (some "out") ⟨"eng", 300, 3, 3, "", true, none⟩
        none true (dualEngine "hi")).pdfAtBase = true) :=
  ⟨rfl, formatDuality_explicitDir "tesseract" "scan.png" "out" _ none "hi" rfl⟩

/-- C7 counterexample: engine exits successfully, the text file is missing,
and the forced re-run FAILS — the checked re-run raises, so the call
propagates an exception instead of returning an absent text result, even
though the file is still absent. -/
theorem textRerun_counterexample :
    (processImage "tesseract" "scan.png" none {} none true
        { ok := true, writesTxt := false, txtContent := "", writesPdf := false,
          rerunOk := false, rerunWritesTxt := false, rerunTxtContent := "" }).result
      = Except.error () ∧
    (processImage "tesseract" "scan.png" none {} none true
        { ok := true, writesTxt := false, txtContent := "", writesPdf := false,
          rerunOk := false, rerunWritesTxt := false, rerunTxtContent := "" }).txtAtBase
      = false :=
  ⟨rfl, rfl⟩

/-- C7 amended: when the engine exits successfully but the text file is
missing, the processor re-invokes the engine with only the language flag;
PROVIDED that re-run itself exits successfully, if the file is still
absent the call returns an absent text result without raising (a failing
re-run instead raises, because it is run with `check=True`). -/
theorem textRerun_returnsNone (tc img : String) (od : Option String)
    (cfg : TesseractConfig) (ob : Option String) (wp : Bool) :
    (processImage tc img od cfg ob true (rerunMissEngine wp)).result = .ok none ∧
    (processImage tc img od cfg ob true (rerunMissEngine wp)).rerunCmd =
      some [tc, img, (processImage tc img od cfg ob true (rerunMissEngine wp)).outPath,
            "-l", cfg.lang] := by
  cases od <;> exact ⟨rfl, rfl⟩

lemma processImage_goodEngine (tc img : String) (od : Option String)
    (cfg : TesseractConfig) (ob : Option String) (s : String) :
    (processImage tc img od cfg ob true (goodEngine s)).result = .ok (some s) := by
  cases od <;> rfl

lemma pageLoop_goodEngine (tc : String) (od : Option String) (cfg : TesseractConfig)
    (bn : String) (co : Bool) (texts : List String) (n : Nat)
    (hstr : ∀ s ∈ texts, s ≠ "") :
    (pageLoop tc od cfg bn co true (texts.map goodEngine) n).all_text = texts ∧
    (pageLoop tc od cfg bn co true (texts.map goodEngine) n).failed = false := by
  induction texts generalizing n with
  | nil => exact ⟨rfl, rfl⟩
  | cons s rest ih =>
    have hs : strTruthy s = true := by
      simpa [strTruthy] using hstr s (List.mem_cons_self s rest)
    have hrest := ih (n + 1) (fun x hx => hstr x (List.mem_cons_of_mem s hx))
    rw [List.map_cons]
    unfold pageLoop
    simp only [processImage_goodEngine]
    simp [hs, hrest.1, hrest.2]

/-- C1 counterexample: a 2-page PDF whose page texts are `"a"` and `""`
(an empty but present per-page text), processed with text return,
combination and an output directory: the blank-line join of the N = 2
per-page texts is `"a\n\n"`, but the code drops falsy page texts, returns
`"a"` and writes `"a"` to the combined file. -/
theorem pdfJoin_counterexample :
    (processPdf "tesseract" "doc.pdf" (some "out") {} none true true
        [goodEngine "a", goodEngine ""]).result = .ok (some "a") ∧
    (processPdf "tesseract" "doc.pdf" (some "out") {} none true true
        [goodEngine "a", goodEngine ""]).combinedTxt = some ("out/doc.txt", "a") ∧
    String.intercalate "\n\n" ["a", ""] = "a\n\n" ∧
    ("a" : String) ≠ "a\n\n" :=
  ⟨rfl, rfl, by decide, by decide⟩

/-- C1 amended: for a PDF with N ≥ 1 pages each producing a NON-empty
per-page text, with text return, combination and an output directory, the
returned string is the blank-line join of the N per-page texts in page
order, and the combined file `<destination>/<base>.txt` holds that same
join (pages whose text is absent or empty are dropped from the join in
general, which is what the counterexample forces this restriction for). -/
theorem pdfJoin_allNonempty (tc pdf d : String) (cfg : TesseractConfig)
    (texts : List String) (hne : texts ≠ []) (hstr : ∀ s ∈ texts, s ≠ "") :
    (processPdf tc pdf (some d) cfg none true true (texts.map goodEngine)).result =
      .ok (some (String.intercalate "\n\n" texts)) ∧
    (processPdf tc pdf (some d) cfg none true true (texts.map goodEngine)).combinedTxt =
      some (pathJoin d (pathStem pdf ++ ".txt"), String.intercalate "\n\n" texts) := by
  cases texts with
  | nil => exact absurd rfl hne
  | cons t ts =>
    have hloop := pageLoop_goodEngine tc
      (some (pathJoin (pathJoin d "pages") (pyOrStr none (pathStem pdf)))) cfg
      (pyOrStr none (pathStem pdf)) true (t :: ts) 1 hstr
    unfold processPdf
    rw [List.map_cons]
    simp only [Bool.or_self, Bool.true_or, Bool.or_true] at *
    simp [hloop.1, hloop.2, pyOrStr, optStrTruthy]
    simp only [List.map_cons] at hloop
    simp [pyOrStr, optStrTruthy] at hloop
    simp [hloop.1, hloop.2]

/-- Witness for `pdfJoin_allNonempty` at a concrete 2-page PDF with page
texts `"hello"` and `"world"`. -/
theorem pdfJoin_allNonempty_witness :
    (processPdf "tesseract" "doc.pdf" (some "out") {} none true true
        [goodEngine "hello", goodEngine "world"]).result = .ok (some "hello\n\nworld") ∧
    (processPdf "tesseract" "doc.pdf" (some "out") {} none true true
        [goodEngine "hello", goodEngine "world"]).combinedTxt
      = some ("out/doc.txt", "hello\n\nworld") := by
  have h := pdfJoin_allNonempty "tesseract" "doc.pdf" "out" {} ["hello", "world"]
    (by decide) (by decide)
  simpa using h
